import Mathlib

/-!
Verification of the Streamlit demo app `src/app.py` ("GenAI for Financial
Services Compliance").  The app is embedded shallowly: every `st.*` call is
recorded as an `Event`, each rendering routine is a pure function from the
current form values to the list of events it emits, and the session resolver
`get_session` is a pure function of the ambient-session attempt and the
secrets mapping.
-/

namespace ComplianceApp

/-! ### Session resolver (app.py lines 28-41) -/

/-- The six connection options read from `st.secrets`. -/
structure ConnParams where
  account : String
  user : String
  password : String
  warehouse : String
  database : String
  schema : String
deriving DecidableEq, Repr

/-- A Snowpark session handle: either the ambient one returned by
`get_active_session()` or one built by `Session.builder.configs(p).create()`. -/
inductive Session where
  | ambient
  | built (params : ConnParams)
deriving DecidableEq, Repr

/-- Python `dict.get(k, dflt)` on a string-valued mapping (association list,
first binding wins, as in a Python dict each key occurs at most once). -/
def dictGet (m : List (String × String)) (k : String) (dflt : String) : String :=
  match m.find? (fun p => p.1 == k) with
  | some p => p.2
  | none => dflt

/-- `st.secrets.get(k, {})`: the secrets object is a mapping from section
names to option mappings; a missing section defaults to the empty mapping. -/
def secretsGet (secrets : List (String × List (String × String))) (k : String) :
    List (String × String) :=
  match secrets.find? (fun p => p.1 == k) with
  | some p => p.2
  | none => []

/-- app.py lines 33-40: the `connection_params` dict built in the fallback
branch of `get_session`; each option is
`st.secrets.get("snowflake", {}).get(key, "")`. -/
def connection_params (secrets : List (String × List (String × String))) : ConnParams :=
  { account := dictGet (secretsGet secrets "snowflake") "account" ""
    user := dictGet (secretsGet secrets "snowflake") "user" ""
    password := dictGet (secretsGet secrets "snowflake") "password" ""
    warehouse := dictGet (secretsGet secrets "snowflake") "warehouse" ""
    database := dictGet (secretsGet secrets "snowflake") "database" ""
    schema := dictGet (secretsGet secrets "snowflake") "schema" "" }

/-- app.py lines 28-41, `get_session`.  `ambient` is the outcome of
`get_active_session()` (`.error` = it raised some exception), `create` is the
outcome of `Session.builder.configs(p).create()` for given params.  The `try`
returns the ambient handle when it succeeds; on any exception the fallback
builds `connection_params` and calls `create`, whose failures are not caught
(the `Except.error` propagates to the caller). -/
def get_session (ambient : Except String Session)
    (secrets : List (String × List (String × String)))
    (create : ConnParams → Except String Session) : Except String Session :=
  match ambient with
  | .ok s => .ok s
  | .error _ => create (connection_params secrets)

/-! ### Display surface: events emitted by `st.*` calls -/

/-- One `st.*` call, recorded in source order.  Widgets record their label and
(for value-bearing widgets) the default value or the fixed option list; the
value a widget returns during a run comes from the current form state. -/
inductive Event where
  | setPageConfig (pageTitle pageIcon layout : String)
  | title (s : String)
  | header (s : String)
  | subheader (s : String)
  | markdown (s : String)
  | sidebarHeader (s : String)
  | sidebarRadio (label : String) (options : List String)
  | sidebarDivider
  | sidebarMarkdown (s : String)
  | sidebarCaption (s : String)
  | tabs (labels : List String)
  | multiselect (label : String) (options dflt : List String)
  | textArea (label dflt : String)
  | textInput (label dflt : String)
  | selectbox (label : String) (options : List String)
  | button (label key : String)
  | code (body lang : String)
  | success (s : String)
  | info (s : String)
  | caption (s : String)
  | columns (n : Nat)
  | sessionCreate
deriving DecidableEq, Repr

/-! ### Fixed texts and option sets from the source -/

/-- app.py line 25. -/
def AVAILABLE_LLMS : List String :=
  ["claude-3-5-sonnet", "llama3.1-70b", "mistral-large2", "snowflake-arctic"]

/-- app.py lines 52-58: the five radio labels of the sidebar menu. -/
def demoLabels : List String :=
  ["🎯 Introduction",
   "1️⃣ Classification & Filtering",
   "2️⃣ Extraction & Sentiment",
   "3️⃣ Aggregation & Similarity",
   "4️⃣ Multimodal Capabilities"]

/-- app.py lines 143-144: the multiselect option set of Demo 1 / AI_CLASSIFY. -/
def riskCategories : List String :=
  ["insider_trading", "market_manipulation", "data_exfiltration",
   "unauthorized_communication", "clean"]

/-- app.py line 145: the multiselect default. -/
def defaultCategories : List String :=
  ["insider_trading", "market_manipulation", "clean"]

/-- app.py line 150: default value of the sample-email text area. -/
def defaultSampleEmail : String :=
  "Hey, just heard from my contact at Acme Corp - they're announcing the merger tomorrow before market open. We should load up on shares today."

/-- app.py line 172: default value of the filter-question text input. -/
def defaultFilterQuestion : String :=
  "Does this mention non-public information?"

/-- app.py lines 223-228. -/
def extraction_questions : List String :=
  ["What securities or tickers are mentioned?",
   "Are there any price predictions or targets?",
   "What external parties are referenced?",
   "What dates or timeframes are mentioned?"]

/-- app.py line 218: default value of the Demo 2 email text area. -/
def defaultExtractEmail : String :=
  "Meeting with Goldman Sachs next Tuesday to discuss the AAPL and MSFT positions. Target price for AAPL is $250 by Q2. John from compliance should be looped in."

/-- app.py line 275: default value of the non-English email text area. -/
def defaultSourceText : String :=
  "Ich habe vertrauliche Informationen über die bevorstehende Fusion erhalten. Wir sollten schnell handeln."

/-! ### Python string interpolation of a list value

`f"... {categories} ..."` converts the list with `str`, which uses `repr` on
each element.  For a string with no single quote, no backslash and no
non-printable character — true of every member of `riskCategories`, the only
values the multiselect can return — `repr` is the string between single
quotes. -/

/-- Python `repr` of such a string. -/
def pyStrRepr (s : String) : String := "'" ++ s ++ "'"

/-- Python `str` of a list of such strings: `['a', 'b']`, `[]` when empty. -/
def pyListRepr (xs : List String) : String :=
  "[" ++ String.intercalate ", " (xs.map pyStrRepr) ++ "]"

/-! ### Form state

Current values of the user-editable widgets of each view, plus the trigger
buttons (`st.button` returns `True` exactly in the run caused by its click). -/

/-- Demo 1 form values: `categories`, `sample_email`, the Classify button,
`filter_question`, the Apply Filter button. -/
structure Demo1Form where
  categories : List String
  sample_email : String
  classify_clicked : Bool
  filter_question : String
  filter_clicked : Bool
deriving DecidableEq, Repr

/-- Demo 2 form values: `sample_email` (key "extract_email"), `selected_q`,
the Extract button, `source_text`, the Translate button. -/
structure Demo2Form where
  sample_email : String
  selected_q : String
  extract_clicked : Bool
  source_text : String
  translate_clicked : Bool
deriving DecidableEq, Repr

/-- All form values of one script run: the sidebar radio selection plus the
two interactive views' fields. -/
structure AppForm where
  demo_block : String
  d1 : Demo1Form
  d2 : Demo2Form
deriving DecidableEq, Repr

/-! ### The SQL string templates (f-strings and static strings) -/

/-- app.py lines 155-162: the AI_CLASSIFY f-string;
`{sample_email}` between `$$`, `{categories}` as the Python list text. -/
def classify_sql (sample_email : String) (categories : List String) : String :=
  "\n-- Classify email into compliance risk categories\nSELECT\n    AI_CLASSIFY(\n        $$"
    ++ sample_email
    ++ ("$$,\n        " ++ pyListRepr categories ++ "\n    ) AS risk_classification;\n")

/-- app.py lines 176-182: the AI_FILTER f-string; `{filter_question}` twice,
each between single quotes. -/
def filter_sql (filter_question : String) : String :=
  "\n-- Boolean filter using natural language\nSELECT email_id, sender, subject,\n       AI_FILTER(email_content, '"
    ++ filter_question
    ++ ("') AS flagged\nFROM compliance_emails\nWHERE AI_FILTER(email_content, '"
        ++ filter_question
        ++ "') = TRUE;\n")

/-- app.py lines 187-201: the static combined pipeline query. -/
def combined_sql : String :=
  "\n-- Real-time email monitoring pipeline\nSELECT\n    email_id,\n    sender,\n    recipient,\n    AI_CLASSIFY(\n        email_content,\n        ['insider_trading', 'market_manipulation', 'data_exfiltration', 'clean']\n    ) AS risk_category,\n    AI_FILTER(email_content, 'Does this mention non-public information?') AS material_info_flag,\n    AI_FILTER(email_content, 'Are specific trade amounts mentioned?') AS trade_amounts_flag\nFROM compliance_emails\nWHERE ingestion_timestamp >= CURRENT_TIMESTAMP() - INTERVAL '1 DAY';\n"

/-- app.py lines 233-240: the AI_EXTRACT f-string; `{selected_q}` between
single quotes.  The Demo 2 email text area is not interpolated. -/
def extract_sql (selected_q : String) : String :=
  "\n-- Extract specific compliance-relevant information\nSELECT\n    email_id,\n    AI_EXTRACT(email_content, '"
    ++ selected_q
    ++ "') AS extracted_info\nFROM compliance_emails\nWHERE compliance_flag = TRUE;\n"

/-- app.py lines 250-264: the static AI_SENTIMENT query. -/
def sentiment_sql : String :=
  "\n-- Sentiment analysis across trading communications\nSELECT\n    trader_id,\n    email_date,\n    AI_SENTIMENT(email_content) AS sentiment_score,\n    CASE\n        WHEN AI_SENTIMENT(email_content) < -0.5 THEN 'HIGH RISK'\n        WHEN AI_SENTIMENT(email_content) < 0 THEN 'ELEVATED'\n        ELSE 'NORMAL'\n    END AS risk_level\nFROM trading_communications\nORDER BY sentiment_score ASC\nLIMIT 20;\n"

/-- app.py lines 280-291: the AI_TRANSLATE f-string; `{source_text}` twice,
each between `$$`. -/
def translate_sql (source_text : String) : String :=
  "\n-- Translate then analyze international communications\nSELECT\n    email_id,\n    original_language,\n    AI_TRANSLATE($$"
    ++ source_text
    ++ ("$$, 'de', 'en') AS translated_content,\n    AI_CLASSIFY(\n        AI_TRANSLATE($$"
        ++ source_text
        ++ "$$, 'de', 'en'),\n        ['insider_trading', 'market_manipulation', 'clean']\n    ) AS risk_category\nFROM international_emails;\n")

/-- app.py lines 307-320: the static AI_AGG query. -/
def agg_sql : String :=
  "\n-- Summarize compliance risks by department\nSELECT\n    department,\n    COUNT(*) AS incident_count,\n    AI_AGG(\n        incident_description,\n        'Summarize the main compliance risks and common themes'\n    ) AS risk_summary\nFROM compliance_incidents\nWHERE incident_date >= CURRENT_DATE() - 90\nGROUP BY department\nORDER BY incident_count DESC;\n"

/-- app.py lines 329-347: the static AI_SIMILARITY query. -/
def similarity_sql : String :=
  "\n-- Find emails similar to a known insider trading violation\nWITH known_violation AS (\n    SELECT AI_EMBED(email_content) AS violation_embedding\n    FROM historical_violations\n    WHERE violation_type = 'insider_trading'\n    LIMIT 1\n)\nSELECT\n    e.email_id,\n    e.sender,\n    e.subject,\n    AI_SIMILARITY(AI_EMBED(e.email_content), kv.violation_embedding) AS similarity_score\nFROM compliance_emails e\nCROSS JOIN known_violation kv\nWHERE AI_SIMILARITY(AI_EMBED(e.email_content), kv.violation_embedding) > 0.8\nORDER BY similarity_score DESC\nLIMIT 10;\n"

/-- app.py lines 364-385: the static AI_TRANSCRIBE query. -/
def transcribe_sql : String :=
  "\n-- Transcribe and analyze compliance calls\nWITH transcribed_calls AS (\n    SELECT\n        call_id,\n        trader_id,\n        call_date,\n        AI_TRANSCRIBE(audio_file) AS transcript\n    FROM recorded_calls\n    WHERE call_date >= CURRENT_DATE() - 7\n)\nSELECT\n    call_id,\n    trader_id,\n    AI_CLASSIFY(\n        transcript,\n        ['insider_trading', 'market_manipulation', 'clean']\n    ) AS risk_category,\n    AI_EXTRACT(transcript, 'What securities were discussed?') AS securities_mentioned,\n    AI_SENTIMENT(transcript) AS call_sentiment\nFROM transcribed_calls;\n"

/-- app.py lines 394-406: the static AI_COMPLETE query. -/
def complete_sql : String :=
  "\n-- Analyze document scans for compliance markers\nSELECT\n    document_id,\n    document_type,\n    AI_COMPLETE(\n        'claude-3-5-sonnet',\n        'Analyze this document for compliance concerns. Identify: 1) Document type, 2) Key parties involved, 3) Any red flags or unusual terms, 4) Recommended actions.',\n        document_image  -- Image bytes from stage\n    ) AS compliance_analysis\nFROM document_scans\nWHERE scan_date >= CURRENT_DATE() - 30;\n"

/-! ### Rendering routines (each is the sequence of `st.*` calls it makes;
content inside `with tabN:` / `with colN:` blocks renders on every run, in
source order) -/

/-- app.py lines 82-124, `render_intro`. -/
def render_intro : List Event :=
  [.header "🎯 Introduction to Cortex AI SQL Functions",
   .markdown "\n    ### What are AI SQL Functions?\n\n    Snowflake Cortex AI SQL functions bring **Frontier LLMs directly into SQL queries**.\n    No external APIs, no data movement—all processing stays within Snowflake's security perimeter.\n\n    ### Key Benefits for Compliance\n\n    | Benefit | Description |\n    |---------|-------------|\n    | **Unified Analytics** | AI + traditional analytics in one platform |\n    | **Simplified Pipelines** | No ETL to external ML services |\n    | **Native Multimodal** | Text, images, audio in SQL |\n    | **Governance** | Existing access controls apply to AI outputs |\n\n    ### Available Functions\n    ",
   .columns 2,
   .markdown "\n        **Text Analysis:**\n        - `AI_CLASSIFY` – Categorize text\n        - `AI_FILTER` – Boolean NL filtering\n        - `AI_EXTRACT` – Information extraction\n        - `AI_SENTIMENT` – Sentiment scoring\n        - `AI_TRANSLATE` – Language translation\n        ",
   .markdown "\n        **Advanced:**\n        - `AI_AGG` – Aggregate text across rows\n        - `AI_EMBED` – Vector embeddings\n        - `AI_SIMILARITY` – Similarity calculations\n        - `AI_TRANSCRIBE` – Speech-to-text\n        - `AI_COMPLETE` – General LLM completion\n        ",
   .info "📚 [Documentation](https://docs.snowflake.com/en/user-guide/snowflake-cortex/aisql)"]

/-- app.py lines 127-202, `render_demo_1_classification`.  The two `if
st.button(...)` blocks run exactly when the respective button value is true;
the input fields are not tested. -/
def render_demo_1_classification (f : Demo1Form) : List Event :=
  [.header "1️⃣ Text Classification & Filtering",
   .markdown "Automatically categorize emails and filter for compliance-relevant content.",
   .tabs ["AI_CLASSIFY", "AI_FILTER", "Combined Query"],
   .subheader "AI_CLASSIFY: Email Risk Categorization",
   .markdown "\n        **Zero-shot classification** – no training data required.\n        Define your categories, and the model classifies immediately.\n        ",
   .multiselect "Risk Categories:" riskCategories defaultCategories,
   .textArea "Sample email content:" defaultSampleEmail,
   .button "Classify" "classify_btn"]
  ++ (if f.classify_clicked then
        [.code (classify_sql f.sample_email f.categories) "sql",
         .success "**Expected output:** insider_trading (high confidence)"]
      else [])
  ++ [.subheader "AI_FILTER: Natural Language Filtering",
      .markdown "Ask yes/no questions about content in plain English.",
      .textInput "Filter question:" defaultFilterQuestion,
      .button "Apply Filter" "filter_btn"]
  ++ (if f.filter_clicked then
        [.code (filter_sql f.filter_question) "sql"]
      else [])
  ++ [.subheader "Combined: Classify + Filter Pipeline",
      .code combined_sql "sql"]

/-- app.py lines 205-293, `render_demo_2_extraction`. -/
def render_demo_2_extraction (f : Demo2Form) : List Event :=
  [.header "2️⃣ Information Extraction & Sentiment",
   .markdown "Extract structured data and analyze emotional tone in communications.",
   .tabs ["AI_EXTRACT", "AI_SENTIMENT", "AI_TRANSLATE"],
   .subheader "AI_EXTRACT: Entity & Information Extraction",
   .markdown "Ask specific questions to extract structured information.",
   .textArea "Email content:" defaultExtractEmail,
   .selectbox "Extraction question:" extraction_questions,
   .button "Extract" "extract_btn"]
  ++ (if f.extract_clicked then
        [.code (extract_sql f.selected_q) "sql"]
      else [])
  ++ [.subheader "AI_SENTIMENT: Risk Sentiment Analysis",
      .markdown "\n        Score sentiment from **-1 (negative)** to **+1 (positive)**.\n        Useful for detecting stress, frustration, or aggressive language.\n        ",
      .code sentiment_sql "sql",
      .markdown "**Use case:** Flag traders with consistently negative sentiment for review.",
      .subheader "AI_TRANSLATE: International Communications",
      .markdown "Handle multi-language compliance monitoring.",
      .textArea "Non-English email:" defaultSourceText,
      .button "Translate & Analyze" "translate_btn"]
  ++ (if f.translate_clicked then
        [.code (translate_sql f.source_text) "sql",
         .info "💡 Translation: 'I have received confidential information about the upcoming merger. We should act quickly.'"]
      else [])

/-- app.py lines 296-350, `render_demo_3_aggregation` (no user inputs). -/
def render_demo_3_aggregation : List Event :=
  [.header "3️⃣ Aggregation & Similarity",
   .markdown "Analyze patterns across multiple records and find similar communications.",
   .tabs ["AI_AGG", "AI_SIMILARITY"],
   .subheader "AI_AGG: Aggregate Insights Across Groups",
   .markdown "Summarize themes from multiple records using GROUP BY.",
   .code agg_sql "sql",
   .markdown "**Use case:** Executive dashboards summarizing risk by business unit.",
   .subheader "AI_SIMILARITY: Pattern Detection",
   .markdown "Find emails similar to known violations using vector embeddings.",
   .code similarity_sql "sql",
   .markdown "**Use case:** Proactively identify communications matching historical violation patterns."]

/-- app.py lines 353-413, `render_demo_4_multimodal` (no user inputs). -/
def render_demo_4_multimodal : List Event :=
  [.header "4️⃣ Multimodal Capabilities",
   .markdown "Process audio recordings and analyze document images.",
   .tabs ["AI_TRANSCRIBE", "AI_COMPLETE (Images)"],
   .subheader "AI_TRANSCRIBE: Compliance Call Processing",
   .markdown "Convert recorded calls to text for analysis.",
   .code transcribe_sql "sql",
   .markdown "**Pipeline:** Audio → Transcription → Classification → Risk Scoring",
   .subheader "AI_COMPLETE: Document Image Analysis",
   .markdown "Analyze scanned documents, trade confirmations, and attachments.",
   .code complete_sql "sql",
   .markdown "\n        **Supported formats:** Trade confirmations, regulatory filings, email attachments (images)\n\n        **Use case:** Automated review of scanned documents in compliance workflows.\n        "]

/-! ### Dispatcher and process run -/

/-- The five rendering routines `main` can dispatch to. -/
inductive Routine where
  | intro
  | demo1
  | demo2
  | demo3
  | demo4
deriving DecidableEq, Repr

/-- app.py lines 70-79: which routine the `if`/`elif`/`else` chain selects
for a given menu value; the `else` catches everything not matched before it. -/
def route (demo_block : String) : Routine :=
  if demo_block = "🎯 Introduction" then .intro
  else if demo_block = "1️⃣ Classification & Filtering" then .demo1
  else if demo_block = "2️⃣ Extraction & Sentiment" then .demo2
  else if demo_block = "3️⃣ Aggregation & Similarity" then .demo3
  else .demo4

/-- The events one routine emits for the current form values. -/
def routineEvents (r : Routine) (f : AppForm) : List Event :=
  match r with
  | .intro => render_intro
  | .demo1 => render_demo_1_classification f.d1
  | .demo2 => render_demo_2_extraction f.d2
  | .demo3 => render_demo_3_aggregation
  | .demo4 => render_demo_4_multimodal

/-- app.py lines 69-79: the dispatch tail of `main`, exactly the source's
`if demo_block == ... / elif / else` chain over the rendering routines. -/
def dispatch (f : AppForm) : List Event :=
  if f.demo_block = "🎯 Introduction" then render_intro
  else if f.demo_block = "1️⃣ Classification & Filtering" then
    render_demo_1_classification f.d1
  else if f.demo_block = "2️⃣ Extraction & Sentiment" then
    render_demo_2_extraction f.d2
  else if f.demo_block = "3️⃣ Aggregation & Similarity" then
    render_demo_3_aggregation
  else render_demo_4_multimodal

/-- app.py lines 44-79, `main`: title, sidebar, then dispatch.  `main` calls
no session function: `get_session` appears nowhere in its body. -/
def main (f : AppForm) : List Event :=
  [.title "🏦 GenAI for Financial Services Compliance",
   .markdown "**Hands-on Lab**: Cortex AI SQL Functions for Email Communications Monitoring",
   .sidebarHeader "Demo Blocks",
   .sidebarRadio "Select Demo" demoLabels,
   .sidebarDivider,
   .sidebarMarkdown "**Available LLMs:**"]
  ++ AVAILABLE_LLMS.map (fun llm => .sidebarCaption ("• " ++ llm))
  ++ [.sidebarDivider,
      .sidebarCaption "Built with Snowflake Cortex AI SQL"]
  ++ dispatch f

/-- One full run of the script (app.py lines 18-22 and 416-417):
module-level `st.set_page_config`, then `main()`. -/
def processRun (f : AppForm) : List Event :=
  Event.setPageConfig "GenAI Compliance HOL" "🏦" "wide" :: main f

/-- The host re-runs the whole script once per user interaction, passing each
run the then-current form values.  The script reads nothing else: it writes no
module-level global, never touches `st.session_state`, and does no file or
network I/O, so each run's events are a function of that run's form values
alone. -/
def runSequence (fs : List AppForm) : List (List Event) :=
  fs.map processRun

/-! ### Observation helpers -/

/-- The bodies of the `st.code` blocks in a run, in order: the rendered SQL
templates. -/
def codeBlocks (es : List Event) : List String :=
  es.filterMap (fun e =>
    match e with
    | .code body _ => some body
    | _ => none)

/-- How many session handles a run creates. -/
def sessionCreations (es : List Event) : Nat :=
  (es.filter (fun e =>
    match e with
    | .sessionCreate => true
    | _ => false)).length

/-- `pat` occurs verbatim as a substring of `s`. -/
def containsStr (s pat : String) : Prop :=
  pat.data <:+: s.data

instance (s pat : String) : Decidable (containsStr s pat) :=
  List.decidableInfix pat.data s.data

/-- Number of positions of `s` (as a character list) at which `pat` starts. -/
def countOccList (pat : List Char) : List Char → Nat
  | [] => 0
  | c :: rest => (if pat.isPrefixOf (c :: rest) then 1 else 0) + countOccList pat rest

/-- Number of occurrences (counting overlaps) of a non-empty `pat` in `s`. -/
def countOcc (s pat : String) : Nat :=
  countOccList pat.data s.data

/-- A `create` outcome that always fails, standing for a
`Session.builder...create()` call that raises. -/
def alwaysFailCreate : ConnParams → Except String Session :=
  fun _ => Except.error "boom"

/-! ### Helper lemmas about substring containment -/

set_option maxRecDepth 100000

lemma containsStr_self (s : String) : containsStr s s :=
  ⟨[], [], by simp⟩

lemma containsStr_appendL (t : String) {s pat : String} (h : containsStr s pat) :
    containsStr (t ++ s) pat := by
  obtain ⟨u, v, huv⟩ := h
  refine ⟨t.data ++ u, v, ?_⟩
  rw [String.data_append, ← huv]
  simp [List.append_assoc]

lemma containsStr_appendR (t : String) {s pat : String} (h : containsStr s pat) :
    containsStr (s ++ t) pat := by
  obtain ⟨u, v, huv⟩ := h
  refine ⟨u, v ++ t.data, ?_⟩
  rw [String.data_append, ← huv]
  simp [List.append_assoc]

/-! ### C1 -/

/-- C1 (counterexample): with the category selection empty, the sample-email
field empty and the Classify button clicked, Demo 1 still emits the rendered
classification template — the `if st.button(...)` guard tests the button
value only, never the inputs, so an empty required input does NOT suppress
the template output. -/
theorem classify_click_with_empty_inputs_still_emits :
    Event.code (classify_sql "" []) "sql" ∈
      render_demo_1_classification ⟨[], "", true, defaultFilterQuestion, false⟩
    ∧ classify_sql "" [] ∈
        codeBlocks (render_demo_1_classification ⟨[], "", true, defaultFilterQuestion, false⟩) :=
  ⟨by decide, by decide⟩

/-- C1 (amended): the trigger blocks of Demo 1 are guarded by the button
value alone.  With no click the routine's only template output is the static
combined query; with a click the corresponding template is emitted whatever
the form inputs hold, including empty strings and an empty selection. -/
theorem trigger_guard_is_button_only :
    ∀ (cats : List String) (email fq : String),
      codeBlocks (render_demo_1_classification ⟨cats, email, false, fq, false⟩) = [combined_sql]
      ∧ codeBlocks (render_demo_1_classification ⟨cats, email, true, fq, false⟩)
          = [classify_sql email cats, combined_sql]
      ∧ codeBlocks (render_demo_1_classification ⟨cats, email, false, fq, true⟩)
          = [filter_sql fq, combined_sql] := by
  intro cats email fq
  exact ⟨rfl, rfl, rfl⟩

/-! ### C2 -/

/-- C2 (counterexample): a process run on the start-up form values (the
Introduction view with every widget at its default) creates zero session
handles, not one: `main` never calls `get_session`, so the resolver is not
invoked at process start. -/
theorem default_run_creates_no_session :
    sessionCreations (processRun
      ⟨"🎯 Introduction",
       ⟨defaultCategories, defaultSampleEmail, false, defaultFilterQuestion, false⟩,
       ⟨defaultExtractEmail, "What securities or tickers are mentioned?", false,
        defaultSourceText, false⟩⟩) = 0 := by
  rfl

/-- C2 (amended): `get_session` is defined but dead code: no execution of the
script invokes it on any form values, so no session handle is ever created
(and a fortiori none is mutated or reused). -/
theorem no_run_invokes_session_resolver :
    ∀ f : AppForm, sessionCreations (processRun f) = 0 := by
  intro f
  obtain ⟨db, ⟨cats, em, c1, fq, c2⟩, ⟨e2, q2, b1, s2, b2⟩⟩ := f
  unfold processRun main dispatch
  split_ifs <;> cases c1 <;> cases c2 <;> cases b1 <;> cases b2 <;> rfl

/-! ### C3 -/

/-- C3 (counterexample): the Extraction view's email-content text area is a
free-text input that is captured but never interpolated: with it set to
"zzz_unique_marker" and Extract clicked, the routine's rendered templates are
the extraction query and the static sentiment query, and neither contains the
entered string. -/
theorem extraction_email_absent_from_templates :
    codeBlocks (render_demo_2_extraction
        ⟨"zzz_unique_marker", "What securities or tickers are mentioned?", true,
         defaultSourceText, false⟩)
      = [extract_sql "What securities or tickers are mentioned?", sentiment_sql]
    ∧ ¬ containsStr (extract_sql "What securities or tickers are mentioned?") "zzz_unique_marker"
    ∧ ¬ containsStr sentiment_sql "zzz_unique_marker" :=
  ⟨rfl, by decide, by decide⟩

/-- C3 (amended): every free-text input that the code interpolates appears
verbatim (unescaped) in its rendered template, and that template is emitted
by the corresponding routine on the trigger click: the classification sample
email, the filter question, the extraction question and the translation
source text.  The one exception is the Extraction view's email content, which
is never interpolated. -/
theorem interpolated_inputs_appear_verbatim :
    ∀ (email q eq t : String) (cats : List String),
      containsStr (classify_sql email cats) email
      ∧ containsStr (filter_sql q) q
      ∧ containsStr (extract_sql eq) eq
      ∧ containsStr (translate_sql t) t
      ∧ Event.code (classify_sql email cats) "sql" ∈
          render_demo_1_classification ⟨cats, email, true, q, false⟩
      ∧ Event.code (filter_sql q) "sql" ∈
          render_demo_1_classification ⟨cats, email, false, q, true⟩
      ∧ Event.code (extract_sql eq) "sql" ∈
          render_demo_2_extraction ⟨email, eq, true, t, false⟩
      ∧ Event.code (translate_sql t) "sql" ∈
          render_demo_2_extraction ⟨email, eq, false, t, true⟩ := by
  intro email q eq t cats
  refine ⟨?_, ?_, ?_, ?_, ?_, ?_, ?_, ?_⟩
  · unfold classify_sql
    exact containsStr_appendR _ (containsStr_appendL _ (containsStr_self email))
  · unfold filter_sql
    exact containsStr_appendR _ (containsStr_appendL _ (containsStr_self q))
  · unfold extract_sql
    exact containsStr_appendR _ (containsStr_appendL _ (containsStr_self eq))
  · unfold translate_sql
    exact containsStr_appendR _ (containsStr_appendL _ (containsStr_self t))
  · simp [render_demo_1_classification]
  · simp [render_demo_1_classification]
  · simp [render_demo_2_extraction]
  · simp [render_demo_2_extraction]

/-! ### C4 -/

/-- C4: for each of the five menu labels the dispatcher executes exactly the
one corresponding routine (the dispatch output is precisely that routine's
events — no other routine contributes), the first four labels are matched
exactly, and the final `else` branch handles every label not matched before
it, in particular the remaining fifth label. -/
theorem dispatch_selects_matching_routine :
    (∀ f : AppForm, dispatch f = routineEvents (route f.demo_block) f)
    ∧ route "🎯 Introduction" = .intro
    ∧ route "1️⃣ Classification & Filtering" = .demo1
    ∧ route "2️⃣ Extraction & Sentiment" = .demo2
    ∧ route "3️⃣ Aggregation & Similarity" = .demo3
    ∧ (∀ s : String, s ≠ "🎯 Introduction" → s ≠ "1️⃣ Classification & Filtering" →
        s ≠ "2️⃣ Extraction & Sentiment" → s ≠ "3️⃣ Aggregation & Similarity" →
        route s = .demo4) := by
  refine ⟨?_, by decide, by decide, by decide, by decide, ?_⟩
  · intro f
    unfold dispatch route routineEvents
    split_ifs <;> rfl
  · intro s h1 h2 h3 h4
    unfold route
    rw [if_neg h1, if_neg h2, if_neg h3, if_neg h4]

/-- C4 (witness): the fifth label is handled by the default branch. -/
theorem dispatch_selects_matching_routine_witness :
    route "4️⃣ Multimodal Capabilities" = .demo4 :=
  dispatch_selects_matching_routine.2.2.2.2.2 "4️⃣ Multimodal Capabilities"
    (by decide) (by decide) (by decide) (by decide)

/-! ### C5 -/

/-- C5: for every secrets mapping, each of the six recognized keys that is
absent from the "snowflake" section is replaced by the empty string in the
constructed connection parameters (rather than failing), and the empty
mapping yields parameters with all six fields equal to the empty string. -/
theorem missing_keys_default_to_empty_string :
    (∀ secrets : List (String × List (String × String)),
      ((secretsGet secrets "snowflake").find? (fun p => p.1 == "account") = none →
        (connection_params secrets).account = "")
      ∧ ((secretsGet secrets "snowflake").find? (fun p => p.1 == "user") = none →
        (connection_params secrets).user = "")
      ∧ ((secretsGet secrets "snowflake").find? (fun p => p.1 == "password") = none →
        (connection_params secrets).password = "")
      ∧ ((secretsGet secrets "snowflake").find? (fun p => p.1 == "warehouse") = none →
        (connection_params secrets).warehouse = "")
      ∧ ((secretsGet secrets "snowflake").find? (fun p => p.1 == "database") = none →
        (connection_params secrets).database = "")
      ∧ ((secretsGet secrets "snowflake").find? (fun p => p.1 == "schema") = none →
        (connection_params secrets).schema = ""))
    ∧ connection_params [] = ⟨"", "", "", "", "", ""⟩ := by
  refine ⟨fun secrets => ?_, rfl⟩
  refine ⟨fun h => ?_, fun h => ?_, fun h => ?_, fun h => ?_, fun h => ?_, fun h => ?_⟩ <;>
    simp [connection_params, dictGet, h]

/-- C5 (witness): on the empty secrets mapping the account key is absent and
the constructed account field is the empty string. -/
theorem missing_keys_default_to_empty_string_witness :
    (connection_params []).account = "" :=
  (missing_keys_default_to_empty_string.1 []).1 (by decide)

/-! ### C6 -/

/-- C6: the resolver returns the ambient handle whenever `get_active_session`
succeeds; on any ambient failure it calls the builder exactly once on the
parameters read from the secrets (its result, success or failure, is the
resolver's result — no retry); and a builder failure propagates uncaught to
the caller. -/
theorem session_resolver_fallback_semantics :
    ∀ (secrets : List (String × List (String × String)))
      (create : ConnParams → Except String Session),
      (∀ s : Session, get_session (.ok s) secrets create = .ok s)
      ∧ (∀ e : String, get_session (.error e) secrets create = create (connection_params secrets))
      ∧ (∀ e err : String, create (connection_params secrets) = .error err →
          get_session (.error e) secrets create = .error err) := by
  intro secrets create
  exact ⟨fun s => rfl, fun e => rfl, fun e err h => by simp [get_session, h]⟩

/-- C6 (witness): with no ambient session and a builder that raises, the
resolver propagates exactly the builder's error. -/
theorem session_resolver_fallback_semantics_witness :
    get_session (.error "down") [] alwaysFailCreate = .error "boom" :=
  (session_resolver_fallback_semantics [] alwaysFailCreate).2.2 "down" "boom" rfl

/-! ### C7 -/

/-- C7: selecting the Classification view with categories
`["insider_trading", "clean"]` and the default sample email, then clicking
Classify, emits a template that contains both category strings and the
literal default sample text as substrings. -/
theorem classification_scenario_template_contents :
    Event.code (classify_sql defaultSampleEmail ["insider_trading", "clean"]) "sql" ∈
      main ⟨"1️⃣ Classification & Filtering",
            ⟨["insider_trading", "clean"], defaultSampleEmail, true, defaultFilterQuestion, false⟩,
            ⟨defaultExtractEmail, "What securities or tickers are mentioned?", false,
             defaultSourceText, false⟩⟩
    ∧ containsStr (classify_sql defaultSampleEmail ["insider_trading", "clean"]) "insider_trading"
    ∧ containsStr (classify_sql defaultSampleEmail ["insider_trading", "clean"]) "clean"
    ∧ containsStr (classify_sql defaultSampleEmail ["insider_trading", "clean"]) defaultSampleEmail :=
  ⟨by decide, by decide, by decide, by decide⟩

/-! ### C8 -/

/-- C8: each script run is a stateless, idempotent, deterministic function of
that run's form values: in a sequence of interactions, the output of a run
with given form values is the same whatever interactions preceded it (no
render mutates state observable by later renders), and two consecutive runs
on identical form values emit identical event lists. -/
theorem renders_are_stateless_and_deterministic :
    (∀ (h₁ h₂ : List AppForm) (f : AppForm),
        (runSequence (h₁ ++ [f])).getLast? = (runSequence (h₂ ++ [f])).getLast?)
    ∧ (∀ f : AppForm, runSequence [f, f] = [processRun f, processRun f]) := by
  refine ⟨fun h₁ h₂ f => ?_, fun f => rfl⟩
  simp [runSequence]

/-! ### C9 -/

/-- C9: with zero categories selected, clicking Classify still emits a
template, and the category list is interpolated with Python list syntax: the
template of an empty selection contains `[]`, and for any selection drawn
from the multiselect's option set it contains the bracketed, single-quoted,
comma-separated text of the chosen categories. -/
theorem category_list_interpolated_python_syntax :
    ∀ (email fq : String) (cats : List String),
      (∀ c ∈ cats, c ∈ riskCategories) →
      Event.code (classify_sql email cats) "sql" ∈
        render_demo_1_classification ⟨cats, email, true, fq, false⟩
      ∧ containsStr (classify_sql email cats)
          ("[" ++ String.intercalate ", " (cats.map (fun c => "'" ++ c ++ "'")) ++ "]")
      ∧ containsStr (classify_sql email []) "[]" := by
  intro email fq cats _
  refine ⟨?_, ?_, ?_⟩
  · simp [render_demo_1_classification]
  · unfold classify_sql
    exact containsStr_appendL _ (containsStr_appendR _ (containsStr_appendL _ (containsStr_self _)))
  · unfold classify_sql
    exact containsStr_appendL _ (containsStr_appendR _ (containsStr_appendL _ (containsStr_self _)))

/-- C9 (witness): the selection `["insider_trading", "clean"]` (drawn from
the option set) and the empty selection, at the default sample email. -/
theorem category_list_interpolated_python_syntax_witness :
    Event.code (classify_sql defaultSampleEmail ["insider_trading", "clean"]) "sql" ∈
      render_demo_1_classification
        ⟨["insider_trading", "clean"], defaultSampleEmail, true, defaultFilterQuestion, false⟩
    ∧ containsStr (classify_sql defaultSampleEmail ["insider_trading", "clean"])
        ("[" ++ String.intercalate ", "
            (["insider_trading", "clean"].map (fun c => "'" ++ c ++ "'")) ++ "]")
    ∧ containsStr (classify_sql defaultSampleEmail []) "[]" :=
  category_list_interpolated_python_syntax defaultSampleEmail defaultFilterQuestion
    ["insider_trading", "clean"] (by decide)

/-! ### C10 -/

/-- C10 (counterexample): for the filter question "e" the rendered template
contains the question at 16 positions, not exactly two — a question string
that also occurs in the fixed template text occurs more than twice. -/
theorem short_question_occurs_more_than_twice :
    countOcc (filter_sql "e") "e" = 16 ∧ countOcc (filter_sql "e") "e" ≠ 2 :=
  ⟨by decide, by decide⟩

/-- C10 (amended): the filter template interpolates the question at exactly
two sites, each enclosed in single quotes without escaping (the template is
literally fixed-text, quote, question, quote, fixed-text, quote, question,
quote, fixed-text); the question therefore occurs at least at these two
positions, and exactly twice for a question — such as the default one — that
does not additionally occur in the fixed template text. -/
theorem filter_question_two_quoted_interpolation_sites :
    (∀ q : String,
      filter_sql q =
        "\n-- Boolean filter using natural language\nSELECT email_id, sender, subject,\n       AI_FILTER(email_content, "
          ++ "'" ++ q ++ "'"
          ++ ") AS flagged\nFROM compliance_emails\nWHERE AI_FILTER(email_content, "
          ++ "'" ++ q ++ "'" ++ ") = TRUE;\n")
    ∧ countOcc (filter_sql defaultFilterQuestion) defaultFilterQuestion = 2 := by
  refine ⟨fun q => ?_, by decide⟩
  unfold filter_sql
  apply String.ext
  simp [String.data_append, List.append_assoc]

end ComplianceApp
